import Mathlib

/-!
Verification of the response-selection engine of `user_clone.py`
(class `GenerativeUserClone`).

Texts are modelled as `List Char` (`Str`).  Python string operations used by
the source (`lower`, `strip`, `rstrip`, substring `in`, `split`, `endswith`,
`re.sub(r'[^\w\s]', '', s)`) are modelled by executable functions below.
`Char.toLower` agrees with Python `str.lower` on ASCII, which covers every
character the source's fixed vocabularies use.

The TF-IDF vectorizer / nearest-neighbour numerics of scikit-learn are outside
a shallow embedding; they are abstracted as an oracle function
`KnnQ : List Str → List Str → Str → Option (Nat × ℚ)` giving, for the fitted
input corpus and a query, the nearest neighbour index and cosine distance, or
`none` for the exception path swallowed by the source's bare `except`.
Everything the claims decide on (the exact-match scan, thresholds, greeting
handling, template generation, the multi-question recursion) is modelled
directly from the source.
-/

abbrev Str := List Char

/-- The six characters stripped by Python `str.strip()` with no argument. -/
def pyIsSpace (c : Char) : Bool :=
  c == ' ' || c == '\t' || c == '\n' || c == '\r' || c == '\x0b' || c == '\x0c'

/-- Python `str.lower()` (ASCII range, which covers the source's vocabularies). -/
def pyLower (s : Str) : Str := s.map Char.toLower

/-- Left part of Python `strip()`. -/
def stripLeft (s : Str) : Str := s.dropWhile pyIsSpace

/-- Right part of Python `strip()`. -/
def stripRight (s : Str) : Str := (s.reverse.dropWhile pyIsSpace).reverse

/-- Python `str.strip()`. -/
def pyStrip (s : Str) : Str := stripRight (stripLeft s)

/-- Python `str.rstrip('.')`: remove every trailing `'.'`. -/
def rstripDots (s : Str) : Str := (s.reverse.dropWhile (fun c => c == '.')).reverse

/-- Python `s.endswith(c)` for a single character `c`. -/
def lastIs (c : Char) (s : Str) : Bool := s.getLast? == some c

/-- Boolean list-prefix test (structural, kernel-reducible). -/
def isPrefixB : Str → Str → Bool
  | [], _ => true
  | _ :: _, [] => false
  | a :: as, b :: bs => a == b && isPrefixB as bs

/-- Python substring test `p in s` (contiguous occurrence). -/
def isSubstrB (p : Str) : Str → Bool
  | [] => isPrefixB p []
  | c :: t => isPrefixB p (c :: t) || isSubstrB p t

/-- Python `any(w in s for w in ws)`. -/
def containsAny (s : Str) (ws : List Str) : Bool := ws.any (fun w => isSubstrB w s)

/-- Python `re.sub(r'[^\w\s]', '', s)`: keep word characters and whitespace
(ASCII reading of `\w` and `\s`, which covers the corpus texts the claims use). -/
def removePunct (s : Str) : Str :=
  s.filter (fun c => c.isAlphanum || c == '_' || pyIsSpace c)

/-- Auxiliary for `pySplit`; the fuel always starts at the length of the
string, which one unit per consumed character makes sufficient. -/
def pySplitGo (sep : Str) : Nat → Str → Str → List Str
  | 0, s, acc => [acc.reverse ++ s]
  | _ + 1, [], acc => [acc.reverse]
  | n + 1, c :: rest, acc =>
      if isPrefixB sep (c :: rest) && !sep.isEmpty then
        acc.reverse :: pySplitGo sep n (List.drop (sep.length - 1) rest) []
      else
        pySplitGo sep n rest (c :: acc)

/-- Python `s.split(sep)` for a non-empty separator. -/
def pySplit (sep : Str) (s : Str) : List Str := pySplitGo sep s.length s []

/-- Auxiliary for `pyWords` (Python `str.split()` with no argument):
whitespace runs separate words, no empty words are produced. -/
def pyWordsGo : Str → Str → List Str
  | [], acc => if acc.isEmpty then [] else [acc.reverse]
  | c :: rest, acc =>
      if pyIsSpace c then
        if acc.isEmpty then pyWordsGo rest [] else acc.reverse :: pyWordsGo rest []
      else pyWordsGo rest (c :: acc)

/-- Python `str.split()` with no argument. -/
def pyWords (s : Str) : List Str := pyWordsGo s []

/-!  ## Data model: style profile, persisted artifacts, clone state  -/

/-- The style dictionary built by `analyze_user_style` (a `None`-like empty
dictionary is modelled as `Option Style = none` at the use sites). -/
structure Style where
  common_words : List (Str × Nat)
  response_length : Nat
  punctuation_style : String
  formality_level : String
  common_starters : List Str
  common_enders : List Str
deriving DecidableEq

/-- The artifacts on disk (`models/*.joblib`); `none` = file absent.
The vectorizer and KNN artifacts are represented by the input corpus they
were fitted on. -/
structure Disk where
  vec : Option (List Str)
  knn : Option (List Str)
  convs : Option (List (Str × Str))
  style : Option (Option Style)
deriving DecidableEq

/-- The mutable state of a `GenerativeUserClone` object.  `vectorizer` and
`knn_model` hold the corpus inputs they were fitted over (`none` = Python
`None`); `user_style` is `none` when the Python dict is empty (falsy). -/
structure CloneState where
  vectorizer : Option (List Str)
  knn_model : Option (List Str)
  conversations : List (Str × Str)
  models_loaded : Bool
  user_style : Option Style
  disk : Disk
deriving DecidableEq

/-- Oracle for the scikit-learn numerics of `find_retrieval_response`
strategy 2: given the corpora the vectorizer and KNN model were fitted on and
the raw query, the nearest neighbour index with its cosine distance, or `none`
for the exception path of the source's bare `except`. -/
abbrev KnnQ := List Str → List Str → Str → Option (Nat × ℚ)

/-- Choice oracle modelling `random.choice`: given the length of the
candidate list it yields an arbitrary index, taken modulo the length. -/
def choose (pick : Nat → Nat) (l : List α) (d : α) : α :=
  l.getD (pick l.length % l.length) d

/-!  ## Fixed vocabularies (verbatim from the source)  -/

def simple_greetings : List Str :=
  [ "hi".data, "hello".data, "hey".data, "hy".data, "helo".data, "yo".data, "sup".data,
    "hi!".data, "hello!".data, "hey!".data, "hi.".data, "hello.".data, "hey.".data,
    "hii".data, "helloo".data, "heyy".data ]

def question_words : List Str :=
  [ "what".data, "how".data, "why".data, "when".data, "where".data, "which".data,
    "who".data, "?".data ]

def status_words : List Str :=
  [ "good".data, "fine".data, "ok".data, "okay".data, "great".data, "awesome".data,
    "excellent".data, "well".data ]

def minimal_words : List Str :=
  [ "nothing".data, "not much".data, "nm".data, "same".data, "idk".data,
    "don\x27t know".data, "nothing much".data ]

def food_words : List Str :=
  [ "eat".data, "ate".data, "eating".data, "food".data, "hungry".data, "meal".data ]

def life_words : List Str :=
  [ "life".data, "living".data, "existence".data, "world".data ]

def attention_words : List Str :=
  [ "listen".data, "listening".data, "hear".data, "paying attention".data ]

def personal_questions : List Str :=
  [ "you".data, "your".data, "yourself".data ]

def agreement_words : List Str :=
  [ "yes".data, "yeah".data, "yep".data, "sure".data, "right".data, "true".data,
    "correct".data, "ok".data ]

def thanks_words : List Str :=
  [ "thanks".data, "thank you".data, "thx".data, "ty".data ]

def conjunctions : List Str :=
  [ " and ".data, " also ".data, " plus ".data, " furthermore ".data, " moreover ".data ]

def formal_words : List Str :=
  [ "however".data, "therefore".data, "furthermore".data, "moreover".data, "thus".data ]

def casual_words : List Str :=
  [ "lol".data, "haha".data, "omg".data, "btw".data, "imo".data, "hey".data,
    "hi".data, "yo".data ]

/-!  ## Pure predicates of the engine  -/

/-- `is_simple_greeting` (source lines 158-177). -/
def is_simple_greeting (user_input : Str) : Bool :=
  let user_input_lower := pyStrip (pyLower user_input)
  simple_greetings.contains user_input_lower ||
    (user_input_lower.length ≤ 5 &&
      containsAny user_input_lower [ "hi".data, "hey".data, "hello".data ])

/-- `should_use_personal_response` (source lines 179-193); `mkRat 3 5` and
`mkRat 4 5` are the source's literals `0.6` and `0.8`. -/
def should_use_personal_response (user_input : Str) (similarity_score : ℚ) : Bool :=
  if is_simple_greeting user_input then false
  else
    let user_input_lower := pyLower user_input
    if containsAny user_input_lower question_words then
      decide (similarity_score < mkRat 3 5)
    else
      decide (similarity_score < mkRat 4 5)

/-- `is_very_similar` (source lines 218-228). -/
def is_very_similar (input1 input2 : Str) : Bool :=
  let input1_clean := removePunct input1
  let input2_clean := removePunct input2
  input1_clean == input2_clean ||
    isSubstrB input1_clean input2_clean || isSubstrB input2_clean input1_clean

/-- `classify_input_type` (source lines 230-282). -/
def classify_input_type (user_input : Str) : String :=
  let user_input_lower := pyStrip (pyLower user_input)
  if is_simple_greeting user_input then "greeting"
  else if containsAny user_input_lower status_words then "status_update"
  else if containsAny user_input_lower minimal_words then "minimal_response"
  else if containsAny user_input_lower food_words then "food_related"
  else if containsAny user_input_lower life_words then "life_question"
  else if containsAny user_input_lower attention_words then "attention_check"
  else if isSubstrB ("?".data) user_input_lower then
    if containsAny user_input_lower personal_questions then "question_personal"
    else "question_factual"
  else if containsAny user_input_lower agreement_words then "agreement"
  else if containsAny user_input_lower thanks_words then "thanks"
  else "casual_statement"

/-!  ## Response templates (verbatim from `generate_creative_response`)  -/

def greeting_templates : List Str :=
  [ "Hey there! How\x27s it going?".data,
    "Hi! Nice to see you!".data,
    "Hello! What\x27s new?".data,
    "Hey! How are you doing?".data,
    "Hi there! How can I help you today?".data,
    "Hello! Great to talk to you!".data,
    "Hey! What\x27s on your mind?".data,
    "Hi! How\x27s your day going?".data ]

def status_update_templates : List Str :=
  [ "That\x27s great to hear!".data,
    "Awesome! What have you been up to?".data,
    "Nice! How\x27s everything else going?".data,
    "Glad to hear that!".data,
    "That\x27s wonderful! Anything new?".data,
    "Cool! What\x27s happening with you?".data ]

def minimal_response_templates : List Str :=
  [ "I see!".data, "Okay, cool!".data, "No worries!".data, "That\x27s fine!".data,
    "Alright then!".data, "Sounds good to me!".data, "Got it!".data, "No problem!".data ]

def food_related_templates : List Str :=
  [ "Nice! What did you have to eat?".data,
    "Sounds good! I hope it was tasty!".data,
    "Food is always great! What was your favorite part?".data,
    "Yum! I\x27m getting hungry just thinking about food!".data,
    "Good to hear you ate! Was it delicious?".data ]

def life_question_templates : List Str :=
  [ "Life is pretty interesting these days!".data,
    "Life has its ups and downs, but overall it\x27s good!".data,
    "I think life is what you make of it!".data,
    "Life is full of surprises, don\x27t you think?".data,
    "I\x27m enjoying life! How about you?".data ]

def attention_check_templates : List Str :=
  [ "Yes, I\x27m listening! What\x27s up?".data,
    "I\x27m here and paying attention!".data,
    "Of course I\x27m listening! Go ahead.".data,
    "Yes, I hear you! What would you like to talk about?".data,
    "I\x27m all ears! What\x27s on your mind?".data ]

def question_personal_templates : List Str :=
  [ "That\x27s an interesting question! What do you think?".data,
    "I\x27m not sure about that myself. What\x27s your opinion?".data,
    "That\x27s something worth thinking about!".data,
    "I\x27m still learning about that. What\x27s your perspective?".data,
    "That\x27s a great question! I\x27d love to know your thoughts too.".data ]

def question_factual_templates : List Str :=
  [ "From what I know, it\x27s quite fascinating.".data,
    "I believe there are different perspectives on that.".data,
    "Based on what I\x27ve learned, it\x27s an interesting topic.".data,
    "I think that depends on how you look at it.".data,
    "In my understanding, it\x27s something worth exploring.".data ]

def agreement_templates : List Str :=
  [ "I agree!".data, "That\x27s right!".data, "Exactly what I was thinking!".data,
    "You\x27ve got a point there!".data, "I think so too!".data, "Definitely!".data,
    "Absolutely!".data, "For sure!".data ]

def thanks_templates : List Str :=
  [ "You\x27re welcome!".data, "No problem at all!".data, "Happy to help!".data,
    "Anytime!".data, "Of course! Glad I could help!".data ]

def casual_statement_templates : List Str :=
  [ "I see what you mean!".data, "That makes sense!".data, "Interesting point!".data,
    "I get what you\x27re saying.".data, "That\x27s a good way to look at it!".data,
    "I understand where you\x27re coming from.".data,
    "Cool! Tell me more about that.".data, "Nice! What else is new?".data ]

/-- The dictionary lookup `response_templates.get(input_type,
response_templates['casual_statement'])`. -/
def templates_for (input_type : String) : List Str :=
  if input_type == "greeting" then greeting_templates
  else if input_type == "status_update" then status_update_templates
  else if input_type == "minimal_response" then minimal_response_templates
  else if input_type == "food_related" then food_related_templates
  else if input_type == "life_question" then life_question_templates
  else if input_type == "attention_check" then attention_check_templates
  else if input_type == "question_personal" then question_personal_templates
  else if input_type == "question_factual" then question_factual_templates
  else if input_type == "agreement" then agreement_templates
  else if input_type == "thanks" then thanks_templates
  else casual_statement_templates

/-- The five connector format strings of `combine_responses`, as
(part before `{}`, part between the two `{}`, part after). -/
def connectors : List (Str × Str × Str) :=
  [ ([], " and also ".data, []),
    ([], ", and ".data, []),
    ("Well, ".data, " plus ".data, []),
    ([], " - and to add to that, ".data, []),
    ([], ". Also, ".data, []) ]

/-!  ## Style application and profile analysis  -/

/-- Python `s.replace(pat, rep)` (all occurrences, non-overlapping, left to
right), used by the formality pass. -/
def pyReplaceAll (pat rep s : Str) : Str := List.intercalate rep (pySplit pat s)

/-- The punctuation branch chain of `apply_user_style` (source lines 460-467). -/
def punctuation_pass (sty : Style) (response : Str) : Str :=
  if sty.punctuation_style == "excited" && !(lastIs '!' response) then
    rstripDots response ++ "!".data
  else if sty.punctuation_style == "thoughtful" &&
      !(response.contains '.' || response.contains '!' || response.contains '?') then
    response ++ "...".data
  else if sty.punctuation_style == "casual" && lastIs '.' response then
    rstripDots response
  else response

/-- The formality branch of `apply_user_style` (source lines 469-476). -/
def formality_pass (sty : Style) (response : Str) : Str :=
  if sty.formality_level == "casual" then
    let r1 :=
      if isPrefixB ("Hello".data) response then "Hey".data ++ response.drop 5
      else response
    if isSubstrB ("How are you".data) r1 then
      pyReplaceAll ("How are you".data) ("How are ya".data) r1
    else r1
  else response

/-- `apply_user_style` (source lines 455-478): no-op on an empty (falsy)
profile, otherwise the punctuation pass followed by the formality pass.
The `user_input` argument is unused, as in the source. -/
def apply_user_style (user_style : Option Style) (response : Str) (_user_input : Str) : Str :=
  match user_style with
  | none => response
  | some sty => formality_pass sty (punctuation_pass sty response)

/-- First-occurrence-order deduplication (models iterating a Python
`Counter` / `set` built by successive insertion). -/
def dedupFirst (l : List Str) : List Str :=
  l.foldl (fun acc x => if acc.contains x then acc else acc ++ [x]) []

/-- `Counter(all_words).most_common(10)`: words with their counts, most
frequent first (ties in first-encounter order). -/
def most_common10 (l : List Str) : List (Str × Nat) :=
  (((dedupFirst l).map (fun w => (w, l.count w))).mergeSort
      (fun a b => Nat.ble b.2 a.2)).take 10

/-- `max(set(punctuations), key=punctuations.count)`.  CPython iterates the
set in hash order; ties are modelled as first-encounter order (no claim
depends on the tie-break, and the claims' corpora produce no tie). -/
def argmaxCount (l : List String) (d : String) : String :=
  (dedupFirst' l).foldl (fun best x => if l.count x > l.count best then x else best) d
where
  dedupFirst' (l : List String) : List String :=
    l.foldl (fun acc x => if acc.contains x then acc else acc ++ [x]) []

/-- `analyze_user_style` (source lines 95-156); `none` models the empty
dictionary set for an empty response list. -/
def analyze_user_style (responses : List Str) : Option Style :=
  if responses.isEmpty then none
  else
    let wordsOf := fun (r : Str) => pyWords (pyLower r)
    let all_words := (responses.map wordsOf).flatten
    let lengths := responses.map (fun r => (wordsOf r).length)
    let punctuations := responses.map (fun r =>
      if r.contains '!' then "excited"
      else if isSubstrB ("...".data) r || isSubstrB ("..".data) r then "thoughtful"
      else if lastIs '.' r then "neutral"
      else "casual")
    let formal_count := (all_words.filter (fun w => formal_words.contains w)).length
    let casual_count := (all_words.filter (fun w => casual_words.contains w)).length
    some
      { common_words := most_common10 all_words
        response_length := if lengths.isEmpty then 5 else lengths.sum / lengths.length
        punctuation_style :=
          if punctuations.isEmpty then "neutral" else argmaxCount punctuations "neutral"
        formality_level :=
          if formal_count > casual_count then "formal"
          else if casual_count > formal_count then "casual"
          else "neutral"
        common_starters := responses.filterMap (fun r =>
          let w := wordsOf r
          if w.length > 1 then some (w.headD []) else none)
        common_enders := responses.filterMap (fun r =>
          let w := wordsOf r
          if w.length > 1 then some (w.getLastD []) else none) }

/-!  ## Retrieval and the generation engine

`generate_creative_response`, `handle_multiple_questions` and
`find_single_response` are mutually recursive in the source with no decreasing
argument, so the cycle is broken with an explicit fuel: one unit is consumed
per `generate_creative_response` unfolding, and `none` means the recursion did
not finish within the given fuel (for any fuel — non-termination of the
source).  `handle_multiple_questions` and `find_single_response` take the
continuation for the nested `generate_creative_response` call as an argument.
-/

/-- `find_retrieval_response` (source lines 195-216).  Strategy 1 scans the
corpus in order for the first `is_very_similar` input; strategy 2 consults the
KNN oracle inside the source's `try`, whose bare `except` (unfit models,
out-of-range index, degenerate query) yields `(None, "no_match", 1.0)`. -/
def find_retrieval_response (knnQ : KnnQ) (st : CloneState) (user_input : Str) :
    Option Str × String × ℚ :=
  let user_input_lower := pyStrip (pyLower user_input)
  match st.conversations.find? (fun p => is_very_similar user_input_lower (pyLower p.1)) with
  | some p => (some p.2, "personal", 0)
  | none =>
    match st.vectorizer, st.knn_model with
    | some vfit, some kfit =>
      match knnQ vfit kfit user_input with
      | some (idx, dist) =>
        match st.conversations.get? idx with
        | some p => (some p.2, "similar_personal", dist)
        | none => (none, "no_match", 1)
      | none => (none, "no_match", 1)
    | _, _ => (none, "no_match", 1)

/-- `find_single_response` (source lines 431-439); `gcr` is the
`generate_creative_response` continuation at the current fuel.  A `None` or
empty (falsy) personal response, or a rejection by the reuse policy, falls
through to generation. -/
def find_single_response (knnQ : KnnQ) (st : CloneState) (gcr : Str → Option Str)
    (user_input : Str) : Option Str :=
  match find_retrieval_response knnQ st user_input with
  | (some personal, _, score) =>
      if !personal.isEmpty && should_use_personal_response user_input score then
        some personal
      else gcr user_input
  | (none, _, _) => gcr user_input

/-- The part loop of `handle_multiple_questions` (source lines 415-421):
strip each part, resolve parts longer than 3 characters through
`find_single_response`, keep the truthy responses.  An inner `none`
(fuel exhaustion of the modelled recursion) aborts the whole computation. -/
def collect_parts (fsr : Str → Option Str) : List Str → Option (List Str)
  | [] => some []
  | p :: ps =>
    let part := pyStrip p
    if !part.isEmpty && part.length > 3 then
      match fsr part with
      | none => none
      | some r =>
        match collect_parts fsr ps with
        | none => none
        | some rest => some (if r.isEmpty then rest else r :: rest)
    else collect_parts fsr ps

/-- `combine_responses` (source lines 441-453). -/
def combine_responses (pick : Nat → Nat) (responses : List Str) : Str :=
  if responses.length == 2 then
    let c := choose pick connectors ([], [], [])
    c.1 ++ responses.getD 0 [] ++ c.2.1 ++ responses.getD 1 [] ++ c.2.2
  else
    List.intercalate (". ".data) responses ++ ".".data

/-- `handle_multiple_questions` (source lines 399-429); `fsr` is the
`find_single_response` continuation.  Note the source checks the conjunction
markers on the lowercased text but splits the original text on the lowercase
`' and '`.  Result `some none` is the source returning `None`; `none` is fuel
exhaustion inside a part. -/
def handle_multiple_questions (fsr : Str → Option Str) (pick : Nat → Nat)
    (user_input : Str) : Option (Option Str) :=
  let user_input_lower := pyLower user_input
  let has_multiple := conjunctions.any (fun c => isSubstrB c user_input_lower)
  if !has_multiple then some none
  else
    let responsesM :=
      if isSubstrB (" and ".data) user_input_lower then
        collect_parts fsr (pySplit (" and ".data) user_input)
      else some []
    match responsesM with
    | none => none
    | some responses =>
      if responses.length > 1 then some (some (combine_responses pick responses))
      else some none

/-- `generate_creative_response` (source lines 284-397), with fuel for the
unbounded mutual recursion through `handle_multiple_questions` and
`find_single_response`. -/
def generate_creative_response (knnQ : KnnQ) (pick : Nat → Nat) (st : CloneState) :
    Nat → Str → Option Str
  | 0, _ => none
  | fuel + 1, user_input =>
    let gcr := fun w => generate_creative_response knnQ pick st fuel w
    let fsr := find_single_response knnQ st gcr
    match handle_multiple_questions fsr pick user_input with
    | none => none
    | some (some multi) => some multi
    | some none =>
      let input_type := classify_input_type user_input
      let templates := templates_for input_type
      let response := choose pick templates []
      some (apply_user_style st.user_style response user_input)

/-- `load_models` (source lines 53-67): succeeds iff all four artifacts are
present on disk, installing them and setting `models_loaded`. -/
def load_models (st : CloneState) : Bool × CloneState :=
  match st.disk.vec, st.disk.knn, st.disk.convs, st.disk.style with
  | some v, some k, some c, some s =>
    (true, { st with vectorizer := some v, knn_model := some k, conversations := c,
                     user_style := s, models_loaded := true })
  | _, _, _, _ => (false, st)

/-- Steps 1-4 of `generate_response` after the models are available
(source lines 486-501). -/
def generate_response_core (knnQ : KnnQ) (fuel : Nat) (pick : Nat → Nat)
    (st : CloneState) (user_input : Str) : Option Str :=
  if st.conversations.isEmpty then
    generate_creative_response knnQ pick st fuel user_input
  else if is_simple_greeting user_input then
    generate_creative_response knnQ pick st fuel user_input
  else
    match find_retrieval_response knnQ st user_input with
    | (some personal, _, score) =>
      if !personal.isEmpty && should_use_personal_response user_input score then
        some personal
      else generate_creative_response knnQ pick st fuel user_input
    | (none, _, _) => generate_creative_response knnQ pick st fuel user_input

/-- `generate_response` (source lines 480-501). -/
def generate_response (knnQ : KnnQ) (fuel : Nat) (pick : Nat → Nat)
    (st : CloneState) (user_input : Str) : Option Str :=
  if !st.models_loaded then
    match load_models st with
    | (false, _) => some ("Please train the model first (option 2).".data)
    | (true, st2) => generate_response_core knnQ fuel pick st2 user_input
  else generate_response_core knnQ fuel pick st user_input

/-- `learn_from_chat` (source lines 69-93): on `was_correct` append the pair;
if both models are fitted (truthy), re-fit them over all current inputs and
persist the three similarity artifacts — the style profile is neither updated
nor persisted.  The persistence writes are modelled as succeeding (the
source's `try` only downgrades I/O failures to a log line). -/
def learn_from_chat (st : CloneState) (user_input user_response : Str)
    (was_correct : Bool) : CloneState :=
  if was_correct then
    let convs := st.conversations ++ [(user_input, user_response)]
    match st.vectorizer, st.knn_model with
    | some _, some _ =>
      let all_inputs := convs.map Prod.fst
      { st with conversations := convs,
                vectorizer := some all_inputs,
                knn_model := some all_inputs,
                disk := { st.disk with vec := some all_inputs, knn := some all_inputs,
                                       convs := some convs } }
    | _, _ => { st with conversations := convs }
  else st

/-!  ## Claims  -/

/-- Claim C10: `learn_from_chat` with `was_correct = False` is a complete
no-op: corpus, vectorizer, neighbour index, style profile and every persisted
artifact are unchanged, for every input and response argument. -/
theorem C10_learn_from_chat_incorrect_noop (st : CloneState) (i r : Str) :
    learn_from_chat st i r false = st := rfl

/-- Claim C5: `learn_from_chat` with `was_correct = True` (on a state with
fitted models, as in a live chat session) appends the new pair to the corpus
and re-fits the vectorizer and neighbour index over the full corpus, leaves
`user_style` unchanged, and re-persists exactly the vectorizer, neighbour
index and corpus artifacts — never the profile. -/
theorem C5_learn_updates_similarity_never_style (st : CloneState) (i r : Str)
    (v k : List Str) (hv : st.vectorizer = some v) (hk : st.knn_model = some k) :
    (learn_from_chat st i r true).conversations = st.conversations ++ [(i, r)] ∧
    (learn_from_chat st i r true).vectorizer
      = some ((st.conversations ++ [(i, r)]).map Prod.fst) ∧
    (learn_from_chat st i r true).knn_model
      = some ((st.conversations ++ [(i, r)]).map Prod.fst) ∧
    (learn_from_chat st i r true).user_style = st.user_style ∧
    (learn_from_chat st i r true).disk.vec
      = some ((st.conversations ++ [(i, r)]).map Prod.fst) ∧
    (learn_from_chat st i r true).disk.knn
      = some ((st.conversations ++ [(i, r)]).map Prod.fst) ∧
    (learn_from_chat st i r true).disk.convs = some (st.conversations ++ [(i, r)]) ∧
    (learn_from_chat st i r true).disk.style = st.disk.style := by
  simp [learn_from_chat, hv, hk]

/-- Witness for C5 at a concrete fitted state. -/
theorem C5_learn_updates_similarity_never_style_witness :
    (⟨some [], some [], [], true, none, ⟨none, none, none, none⟩⟩ : CloneState).vectorizer
        = some [] ∧
    (learn_from_chat ⟨some [], some [], [], true, none, ⟨none, none, none, none⟩⟩
        ("q".data) ("a".data) true).user_style = none := by
  refine ⟨rfl, ?_⟩
  have h := C5_learn_updates_similarity_never_style
    ⟨some [], some [], [], true, none, ⟨none, none, none, none⟩⟩
    ("q".data) ("a".data) [] [] rfl rfl
  exact h.2.2.2.1

/-- Claim C8: `apply_user_style` with a profile whose style is neutral (both
the punctuation style and the formality level) is the identity on the
response text. -/
theorem C8_apply_user_style_neutral_identity (sty : Style) (r u : Str)
    (hp : sty.punctuation_style = "neutral") (hf : sty.formality_level = "neutral") :
    apply_user_style (some sty) r u = r := by
  simp [apply_user_style, punctuation_pass, formality_pass, hp, hf]

/-- Witness for C8 at a concrete neutral profile and text. -/
theorem C8_apply_user_style_neutral_identity_witness :
    apply_user_style (some ⟨[], 5, "neutral", "neutral", [], []⟩)
      ("Hello! How are you.".data) ("x".data) = "Hello! How are you.".data :=
  C8_apply_user_style_neutral_identity ⟨[], 5, "neutral", "neutral", [], []⟩
    ("Hello! How are you.".data) ("x".data) rfl rfl

/-- Claim C7: the punctuation pass of `apply_user_style`: `excited` on text
not ending in `'!'` strips the trailing `'.'` characters and appends `'!'`;
`thoughtful` on text containing none of `. ! ?` appends `"..."`; `casual` on
text ending in `'.'` strips the trailing `'.'` characters; at most one of the
three substitutions fires (the source's `elif` chain).  In particular a
profile analysed from all-exclamation responses is `excited` and rewrites
"That us fine." (with an apostrophe) to the same text ending in `'!'`. -/
theorem C7_punctuation_pass_behaviour :
    (∀ (sty : Style) (r : Str), sty.punctuation_style = "excited" →
      lastIs '!' r = false → punctuation_pass sty r = rstripDots r ++ "!".data) ∧
    (∀ (sty : Style) (r : Str), sty.punctuation_style = "thoughtful" →
      r.contains '.' = false → r.contains '!' = false → r.contains '?' = false →
      punctuation_pass sty r = r ++ "...".data) ∧
    (∀ (sty : Style) (r : Str), sty.punctuation_style = "casual" →
      lastIs '.' r = true → punctuation_pass sty r = rstripDots r) ∧
    ((analyze_user_style ["Nice!".data, "Great!".data]).map Style.punctuation_style
        = some "excited" ∧
      apply_user_style (analyze_user_style ["Nice!".data, "Great!".data])
        ("That\x27s fine.".data) ("x".data) = "That\x27s fine!".data) := by
  refine ⟨?_, ?_, ?_, by decide, by decide⟩
  · intro sty r hp hl; simp [punctuation_pass, hp, hl]
  · intro sty r hp h1 h2 h3
    simp [punctuation_pass, hp, h1, h2, h3]
    exact ⟨by simpa using h1, by simpa using h2, by simpa using h3⟩
  · intro sty r hp hl; simp [punctuation_pass, hp, hl]

/-- Witness for C7: the three universal branches applied at concrete styles
and texts (including a multi-dot text for the `rstrip` behaviour). -/
theorem C7_punctuation_pass_behaviour_witness :
    punctuation_pass ⟨[], 5, "excited", "neutral", [], []⟩ ("That\x27s fine.".data)
        = "That\x27s fine!".data ∧
    punctuation_pass ⟨[], 5, "thoughtful", "neutral", [], []⟩ ("Sure thing".data)
        = "Sure thing...".data ∧
    punctuation_pass ⟨[], 5, "casual", "neutral", [], []⟩ ("Okay then..".data)
        = "Okay then".data := by
  refine ⟨?_, ?_, ?_⟩
  · have h := C7_punctuation_pass_behaviour.1 ⟨[], 5, "excited", "neutral", [], []⟩
      ("That\x27s fine.".data) rfl (by decide)
    rw [h]; decide
  · have h := C7_punctuation_pass_behaviour.2.1 ⟨[], 5, "thoughtful", "neutral", [], []⟩
      ("Sure thing".data) rfl (by decide) (by decide) (by decide)
    rw [h]; decide
  · have h := C7_punctuation_pass_behaviour.2.2.1 ⟨[], 5, "casual", "neutral", [], []⟩
      ("Okay then..".data) rfl (by decide)
    rw [h]; decide

/-- Claim C4: the reuse policy `should_use_personal_response` is exactly the
strict-threshold policy: greetings never reuse; question-marked inputs
(containing `what,how,why,when,where,which,who,?`) reuse iff the distance is
strictly below 3/5 (the source's `0.6`); all other inputs reuse iff the
distance is strictly below 4/5 (the source's `0.8`). -/
theorem C4_reuse_policy_thresholds (u : Str) (score : ℚ) :
    (is_simple_greeting u = true → should_use_personal_response u score = false) ∧
    (is_simple_greeting u = false → containsAny (pyLower u) question_words = true →
      (should_use_personal_response u score = true ↔ score < mkRat 3 5)) ∧
    (is_simple_greeting u = false → containsAny (pyLower u) question_words = false →
      (should_use_personal_response u score = true ↔ score < mkRat 4 5)) := by
  refine ⟨fun hg => ?_, fun hg hq => ?_, fun hg hq => ?_⟩
  · simp [should_use_personal_response, hg]
  · simp [should_use_personal_response, hg, hq]
  · simp [should_use_personal_response, hg, hq]

/-- Witness for C4: the boundary behaviour at distance exactly 6/10 versus
599999/1000000 for a question input, at 8/10 versus 79/100 for a non-question
input, and a greeting never reusing. -/
theorem C4_reuse_policy_thresholds_witness :
    should_use_personal_response ("what time is it".data) (mkRat 6 10) = false ∧
    should_use_personal_response ("what time is it".data) (mkRat 599999 1000000) = true ∧
    should_use_personal_response ("tell me something".data) (mkRat 8 10) = false ∧
    should_use_personal_response ("tell me something".data) (mkRat 79 100) = true ∧
    should_use_personal_response ("hi".data) (mkRat 1 100) = false := by
  refine ⟨?_, ?_, ?_, ?_, ?_⟩
  · have h := (C4_reuse_policy_thresholds ("what time is it".data) (mkRat 6 10)).2.1
      (by decide) (by decide)
    rw [Bool.eq_false_iff]; intro hb; exact absurd (h.1 hb) (by decide)
  · exact ((C4_reuse_policy_thresholds ("what time is it".data)
      (mkRat 599999 1000000)).2.1 (by decide) (by decide)).2 (by decide)
  · have h := (C4_reuse_policy_thresholds ("tell me something".data) (mkRat 8 10)).2.2
      (by decide) (by decide)
    rw [Bool.eq_false_iff]; intro hb; exact absurd (h.1 hb) (by decide)
  · exact ((C4_reuse_policy_thresholds ("tell me something".data)
      (mkRat 79 100)).2.2 (by decide) (by decide)).2 (by decide)
  · exact (C4_reuse_policy_thresholds ("hi".data) (mkRat 1 100)).1 (by decide)

/-- The eleven intent categories of the specification. -/
def intent_categories : List String :=
  [ "greeting", "status_update", "minimal_response", "food_related",
    "life_question", "attention_check", "question_personal", "question_factual",
    "agreement", "thanks", "casual_statement" ]

/-- Spec-side definition (section 4.3): the ordered rule table for `classify`,
evaluated on the trimmed, lowercased input; first match wins,
`casual_statement` is the fallback.  Rule 7 (`?`) is encoded as its two
sub-outcomes in order. -/
def classify_spec_rules : List ((Str → Bool) × String) :=
  [ (fun t => simple_greetings.contains t ||
        (t.length ≤ 5 && containsAny t [ "hi".data, "hey".data, "hello".data ]),
      "greeting"),
    (fun t => containsAny t status_words, "status_update"),
    (fun t => containsAny t minimal_words, "minimal_response"),
    (fun t => containsAny t food_words, "food_related"),
    (fun t => containsAny t life_words, "life_question"),
    (fun t => containsAny t attention_words, "attention_check"),
    (fun t => isSubstrB ("?".data) t && containsAny t personal_questions,
      "question_personal"),
    (fun t => isSubstrB ("?".data) t, "question_factual"),
    (fun t => containsAny t agreement_words, "agreement"),
    (fun t => containsAny t thanks_words, "thanks") ]

/-- Spec-side definition (section 4.3): first-matching-rule classification. -/
def classify_spec (text : Str) : String :=
  let t := pyStrip (pyLower text)
  ((classify_spec_rules.find? (fun rule => rule.1 t)).map Prod.snd).getD
    "casual_statement"

/-- Claim C6: `classify_input_type` is total and deterministic — being a pure
function of the text — and agrees everywhere with the spec's ordered
first-matching-rule table, always yielding one of the eleven fixed
categories. -/
theorem C6_classify_first_match_total (u : Str) :
    classify_input_type u = classify_spec u ∧
    classify_input_type u ∈ intent_categories := by
  constructor
  · simp only [classify_input_type, classify_spec, classify_spec_rules,
      is_simple_greeting, List.find?]
    cases h1 : simple_greetings.contains (pyStrip (pyLower u)) ||
        ((pyStrip (pyLower u)).length ≤ 5 &&
          containsAny (pyStrip (pyLower u)) [ "hi".data, "hey".data, "hello".data ])
    case true => simp [h1]
    cases h2 : containsAny (pyStrip (pyLower u)) status_words
    case true => simp [h1, h2]
    cases h3 : containsAny (pyStrip (pyLower u)) minimal_words
    case true => simp [h1, h2, h3]
    cases h4 : containsAny (pyStrip (pyLower u)) food_words
    case true => simp [h1, h2, h3, h4]
    cases h5 : containsAny (pyStrip (pyLower u)) life_words
    case true => simp [h1, h2, h3, h4, h5]
    cases h6 : containsAny (pyStrip (pyLower u)) attention_words
    case true => simp [h1, h2, h3, h4, h5, h6]
    cases h7 : isSubstrB ("?".data) (pyStrip (pyLower u))
    case true =>
      cases h8 : containsAny (pyStrip (pyLower u)) personal_questions <;>
        simp [h1, h2, h3, h4, h5, h6, h7, h8]
    cases h9 : containsAny (pyStrip (pyLower u)) agreement_words
    case true => simp [h1, h2, h3, h4, h5, h6, h7, h9]
    cases h10 : containsAny (pyStrip (pyLower u)) thanks_words <;>
      simp [h1, h2, h3, h4, h5, h6, h7, h9, h10]
  · simp only [classify_input_type, intent_categories]
    split
    · simp
    all_goals split
    all_goals simp_all
    all_goals split
    all_goals simp_all
    all_goals split
    all_goals simp_all
    all_goals split
    all_goals simp_all
    all_goals split
    all_goals simp_all
    all_goals split
    all_goals simp_all
    all_goals split
    all_goals simp_all

/-!  ## Concrete fixtures used by the remaining claims  -/

def disk0 : Disk := ⟨none, none, none, none⟩

/-- KNN oracle for states whose query never reaches strategy 2 (or hits the
degenerate / exception path). -/
def knn0 : KnnQ := fun _ _ _ => none

/-- Choice oracle always picking the first candidate. -/
def pick0 : Nat → Nat := fun _ => 0

/-- KNN oracle returning the nearest neighbour at cosine distance `1`, as
scikit-learn reports for a query with no vocabulary overlap with the fitted
corpus (for example `"A AND B"` against `"do you like pizza"`). -/
def knn1 : KnnQ := fun _ _ _ => some (0, 1)

/-- A trained state: one corpus pair, fitted models, loaded. -/
def st_c1b : CloneState :=
  ⟨some ["do you like pizza".data], some ["do you like pizza".data],
    [("do you like pizza".data, "yes!".data)], true, none, disk0⟩

/-- A corpus where an earlier pair containment-matches a query whose exact
match sits later. -/
def st_c2 : CloneState :=
  ⟨some [], some [], [("a".data, "r1".data), ("the cat".data, "r2".data)],
    true, none, disk0⟩

/-- The same corpus with the exact-match pair first. -/
def st_c2w : CloneState :=
  ⟨some [], some [], [("the cat".data, "r2".data), ("a".data, "r1".data)],
    true, none, disk0⟩

/-- A corpus whose only stored response is the empty (falsy) string. -/
def st_c2e : CloneState := ⟨some [], some [], [("x".data, [])], true, none, disk0⟩

/-- A loaded, empty-corpus state (greeting fixture). -/
def st_g : CloneState := ⟨none, none, [], true, none, disk0⟩

/-- A one-pair corpus with a non-empty first response. -/
def st_c9 : CloneState :=
  ⟨some [], some [], [("x".data, "ok then".data)], true, none, disk0⟩

/-- A one-pair corpus whose first response is empty. -/
def st_c9e : CloneState := ⟨some [], some [], [("x".data, [])], true, none, disk0⟩

/-!  ## Bridge lemmas between the Boolean string tests and list predicates  -/

lemma isPrefixB_iff (p s : Str) : isPrefixB p s = true ↔ p <+: s := by
  induction p generalizing s with
  | nil => simp [isPrefixB]
  | cons a as ih =>
    cases s with
    | nil => simp [isPrefixB]
    | cons b bs =>
      simp only [isPrefixB, Bool.and_eq_true, beq_iff_eq, ih, List.cons_prefix_cons]

lemma isSubstrB_iff (p s : Str) : isSubstrB p s = true ↔ p <:+: s := by
  induction s with
  | nil => simp [isSubstrB, isPrefixB_iff, List.prefix_nil, List.infix_nil]
  | cons c t ih =>
    simp [isSubstrB, isPrefixB_iff, ih, List.infix_cons_iff]

lemma choose_mem (pick : Nat → Nat) (l : List Str) (d : Str) (h : l ≠ []) :
    choose pick l d ∈ l := by
  have hlt : pick l.length % l.length < l.length :=
    Nat.mod_lt _ (List.length_pos.2 h)
  rw [choose, List.getD_eq_getElem?_getD, List.getElem?_eq_getElem hlt]
  exact List.getElem_mem hlt

lemma should_use_zero (u : Str) (hg : is_simple_greeting u = false) :
    should_use_personal_response u 0 = true := by
  simp only [should_use_personal_response, hg, Bool.false_eq_true, if_false]
  split <;> norm_num [mkRat]

lemma pyLower_all_space (q : Str) (h : q.all pyIsSpace = true) :
    (pyLower q).all pyIsSpace = true := by
  rw [List.all_eq_true] at h ⊢
  intro c hc
  rw [pyLower, List.mem_map] at hc
  obtain ⟨a, ha, rfl⟩ := hc
  have hs := h a ha
  simp only [pyIsSpace, Bool.or_eq_true, beq_iff_eq] at hs
  rcases hs with ((((h1 | h1) | h1) | h1) | h1) | h1 <;> subst h1 <;> decide

lemma pyStrip_all_space (s : Str) (h : s.all pyIsSpace = true) : pyStrip s = [] := by
  have h1 : stripLeft s = [] := by
    rw [stripLeft, List.dropWhile_eq_nil_iff]
    intro x hx
    exact List.all_eq_true.1 h x hx
  rw [pyStrip, h1]; rfl

lemma no_marker_of_space (s : Str) (hs : s.all pyIsSpace = true) :
    containsAny s question_words = false := by
  rw [Bool.eq_false_iff]
  intro h
  rw [containsAny, List.any_eq_true] at h
  obtain ⟨w, hw, hsub⟩ := h
  rw [isSubstrB_iff] at hsub
  have hsubset := hsub.subset
  have hall := List.all_eq_true.1 hs
  fin_cases hw
  · exact absurd (hall 'w' (hsubset (by decide))) (by decide)
  · exact absurd (hall 'h' (hsubset (by decide))) (by decide)
  · exact absurd (hall 'w' (hsubset (by decide))) (by decide)
  · exact absurd (hall 'w' (hsubset (by decide))) (by decide)
  · exact absurd (hall 'w' (hsubset (by decide))) (by decide)
  · exact absurd (hall 'w' (hsubset (by decide))) (by decide)
  · exact absurd (hall 'w' (hsubset (by decide))) (by decide)
  · exact absurd (hall '?' (hsubset (by decide))) (by decide)

lemma not_greeting_of_space (q : Str) (h : q.all pyIsSpace = true) :
    is_simple_greeting q = false := by
  have h2 : pyStrip (pyLower q) = [] := pyStrip_all_space _ (pyLower_all_space q h)
  simp only [is_simple_greeting, h2]
  decide

lemma is_very_similar_nil_left (s : Str) : is_very_similar [] s = true := by
  have : isSubstrB (removePunct []) (removePunct s) = true := by
    cases removePunct s <;> simp [removePunct, isSubstrB, isPrefixB]
  simp [is_very_similar, this]

lemma dwAppendNil {l₁ l₂ : Str} (h : l₁.dropWhile pyIsSpace = []) :
    (l₁ ++ l₂).dropWhile pyIsSpace = l₂.dropWhile pyIsSpace := by
  rw [List.dropWhile_append, if_pos (by simp [h])]

lemma dwAppendNe {l₁ l₂ : Str} (h : l₁.dropWhile pyIsSpace ≠ []) :
    (l₁ ++ l₂).dropWhile pyIsSpace = l₁.dropWhile pyIsSpace ++ l₂ := by
  rw [List.dropWhile_append, if_neg (by simp [h])]

lemma two_distinct_mem_length {c1 c2 : Char} (hne : c1 ≠ c2) {y : Str}
    (h1 : c1 ∈ y) (h2 : c2 ∈ y) : 2 ≤ y.length := by
  cases y with
  | nil => simp at h1
  | cons a t =>
    cases t with
    | nil =>
      simp only [List.mem_singleton] at h1 h2
      exact absurd (h1.trans h2.symm) hne
    | cons b t2 => simp only [List.length_cons]; omega

/-- Shape of the stripped text around an occurrence of `" and "`: stripping
whitespace from the ends can only leave the `" and "` intact, expose `"and "`
at the start, expose `" and"` at the end, or leave exactly `"and"`. -/
lemma strip_shapes_of_and_occurrence (L : Str) (h : (" and ".data) <:+: L) :
    (∃ x y, pyStrip L = x ++ " and ".data ++ y) ∨
    (∃ y, pyStrip L = "and ".data ++ y) ∨
    (∃ x, pyStrip L = x ++ " and".data) ∨
    pyStrip L = "and".data := by
  obtain ⟨s, t, hst⟩ := h
  have hL : L = s ++ (' ' :: 'a' :: 'n' :: 'd' :: ' ' :: t) := by rw [← hst]; simp
  rw [hL]
  cases hsl : s.dropWhile pyIsSpace with
  | nil =>
    have h1 : stripLeft (s ++ (' ' :: 'a' :: 'n' :: 'd' :: ' ' :: t))
        = 'a' :: 'n' :: 'd' :: ' ' :: t := by
      rw [stripLeft, dwAppendNil hsl, List.dropWhile_cons, if_pos (by decide),
        List.dropWhile_cons, if_neg (by decide)]
    cases htr : t.reverse.dropWhile pyIsSpace with
    | nil =>
      have h2 : pyStrip (s ++ (' ' :: 'a' :: 'n' :: 'd' :: ' ' :: t))
          = "and".data := by
        rw [pyStrip, h1, stripRight]
        rw [show ('a' :: 'n' :: 'd' :: ' ' :: t : Str).reverse
            = t.reverse ++ [' ', 'd', 'n', 'a'] from by simp]
        rw [dwAppendNil htr]
        decide
      exact Or.inr (Or.inr (Or.inr h2))
    | cons c cs =>
      have h2 : pyStrip (s ++ (' ' :: 'a' :: 'n' :: 'd' :: ' ' :: t))
          = "and ".data ++ (c :: cs).reverse := by
        rw [pyStrip, h1, stripRight]
        rw [show ('a' :: 'n' :: 'd' :: ' ' :: t : Str).reverse
            = t.reverse ++ [' ', 'd', 'n', 'a'] from by simp]
        rw [dwAppendNe (by rw [htr]; exact List.cons_ne_nil c cs), htr]
        simp
      exact Or.inr (Or.inl ⟨(c :: cs).reverse, h2⟩)
  | cons a as =>
    have hsne : s.dropWhile pyIsSpace ≠ [] := by rw [hsl]; exact List.cons_ne_nil a as
    have h1 : stripLeft (s ++ (' ' :: 'a' :: 'n' :: 'd' :: ' ' :: t))
        = (a :: as) ++ (' ' :: 'a' :: 'n' :: 'd' :: ' ' :: t) := by
      rw [stripLeft, dwAppendNe hsne, hsl]
    cases htr : t.reverse.dropWhile pyIsSpace with
    | nil =>
      have h2 : pyStrip (s ++ (' ' :: 'a' :: 'n' :: 'd' :: ' ' :: t))
          = (a :: as) ++ " and".data := by
        rw [pyStrip, h1, stripRight]
        rw [show ((a :: as) ++ (' ' :: 'a' :: 'n' :: 'd' :: ' ' :: t) : Str).reverse
            = t.reverse ++ ([' ', 'd', 'n', 'a', ' '] ++ (a :: as).reverse) from by simp]
        rw [dwAppendNil htr]
        rw [show ([' ', 'd', 'n', 'a', ' '] ++ (a :: as).reverse : Str)
            = ' ' :: 'd' :: (['n', 'a', ' '] ++ (a :: as).reverse) from by simp]
        rw [List.dropWhile_cons, if_pos (by decide),
          List.dropWhile_cons, if_neg (by decide)]
        simp
      exact Or.inr (Or.inr (Or.inl ⟨a :: as, h2⟩))
    | cons c cs =>
      have h2 : pyStrip (s ++ (' ' :: 'a' :: 'n' :: 'd' :: ' ' :: t))
          = (a :: as) ++ " and ".data ++ (c :: cs).reverse := by
        rw [pyStrip, h1, stripRight]
        rw [show ((a :: as) ++ (' ' :: 'a' :: 'n' :: 'd' :: ' ' :: t) : Str).reverse
            = t.reverse ++ ([' ', 'd', 'n', 'a', ' '] ++ (a :: as).reverse) from by simp]
        rw [dwAppendNe (by rw [htr]; exact List.cons_ne_nil c cs), htr]
        simp
      exact Or.inl ⟨a :: as, (c :: cs).reverse, h2⟩

/-- A greeting input (rule 1) never contains `' and '` in its lowercased,
unstripped form: the stripped text would have to take one of the four shapes
of `strip_shapes_of_and_occurrence`, and none fits the greeting vocabulary or
the short `hi`/`hey`/`hello` rule. -/
lemma greeting_no_and (u : Str) (hg : is_simple_greeting u = true) :
    isSubstrB (" and ".data) (pyLower u) = false := by
  rw [Bool.eq_false_iff]
  intro hsub
  rw [isSubstrB_iff] at hsub
  have hD := strip_shapes_of_and_occurrence (pyLower u) hsub
  have ha : 'a' ∈ pyStrip (pyLower u) := by
    rcases hD with ⟨x, y, hxy⟩ | ⟨y, hy⟩ | ⟨x, hx⟩ | h4
    · rw [hxy]; simp
    · rw [hy]; simp
    · rw [hx]; simp
    · rw [h4]; simp
  simp only [is_simple_greeting, Bool.or_eq_true] at hg
  cases hg with
  | inl hmem =>
    have hmem' : pyStrip (pyLower u) ∈ simple_greetings := by simpa using hmem
    simp only [simple_greetings, List.mem_cons, List.not_mem_nil, or_false] at hmem'
    rcases hmem' with h|h|h|h|h|h|h|h|h|h|h|h|h|h|h|h <;>
      rw [h] at ha <;> exact absurd ha (by decide)
  | inr hshort =>
    rw [Bool.and_eq_true] at hshort
    obtain ⟨hlen, hcont⟩ := hshort
    rw [decide_eq_true_eq] at hlen
    rw [containsAny, List.any_eq_true] at hcont
    obtain ⟨w, hw, hwsub⟩ := hcont
    rw [isSubstrB_iff] at hwsub
    have hhs : 'h' ∈ pyStrip (pyLower u) := hwsub.subset (by fin_cases hw <;> decide)
    have hc2 : ∃ c2, c2 ≠ 'h' ∧ c2 ≠ 'a' ∧ c2 ≠ 'n' ∧ c2 ≠ 'd' ∧ c2 ≠ ' ' ∧
        c2 ∈ pyStrip (pyLower u) := by
      fin_cases hw
      · exact ⟨'i', by decide, by decide, by decide, by decide, by decide,
          hwsub.subset (by decide)⟩
      · exact ⟨'e', by decide, by decide, by decide, by decide, by decide,
          hwsub.subset (by decide)⟩
      · exact ⟨'e', by decide, by decide, by decide, by decide, by decide,
          hwsub.subset (by decide)⟩
    obtain ⟨c2, hc2h, hc2a, hc2n, hc2d, hc2s, hc2m⟩ := hc2
    rcases hD with ⟨x, y, hxy⟩ | ⟨y, hy⟩ | ⟨x, hx⟩ | h4
    · have h5 := hlen
      rw [hxy, List.length_append, List.length_append,
        show (" and ".data : Str).length = 5 from rfl] at h5
      have hx0 : x = [] := by rw [← List.length_eq_zero]; omega
      have hy0 : y = [] := by rw [← List.length_eq_zero]; omega
      subst hx0; subst hy0
      rw [hxy] at hhs
      exact absurd hhs (by decide)
    · have h5 := hlen
      rw [hy, List.length_append, show ("and ".data : Str).length = 4 from rfl] at h5
      have hh' : 'h' ∈ y := by
        rw [hy] at hhs
        rcases List.mem_append.1 hhs with h | h
        · exact absurd h (by decide)
        · exact h
      have hc' : c2 ∈ y := by
        rw [hy] at hc2m
        rcases List.mem_append.1 hc2m with h | h
        · rw [show ("and ".data : Str) = ['a', 'n', 'd', ' '] from rfl] at h
          simp only [List.mem_cons, List.not_mem_nil, or_false] at h
          rcases h with h|h|h|h
          · exact absurd h hc2a
          · exact absurd h hc2n
          · exact absurd h hc2d
          · exact absurd h hc2s
        · exact h
      have := two_distinct_mem_length (fun he => hc2h he.symm) hh' hc'
      omega
    · have h5 := hlen
      rw [hx, List.length_append, show (" and".data : Str).length = 4 from rfl] at h5
      have hh' : 'h' ∈ x := by
        rw [hx] at hhs
        rcases List.mem_append.1 hhs with h | h
        · exact h
        · exact absurd h (by decide)
      have hc' : c2 ∈ x := by
        rw [hx] at hc2m
        rcases List.mem_append.1 hc2m with h | h
        · exact h
        · rw [show (" and".data : Str) = [' ', 'a', 'n', 'd'] from rfl] at h
          simp only [List.mem_cons, List.not_mem_nil, or_false] at h
          rcases h with h|h|h|h
          · exact absurd h hc2s
          · exact absurd h hc2a
          · exact absurd h hc2n
          · exact absurd h hc2d
      have := two_distinct_mem_length (fun he => hc2h he.symm) hh' hc'
      omega
    · rw [h4] at hhs
      exact absurd hhs (by decide)

lemma hmq_no_and (f : Str → Option Str) (pick : Nat → Nat) (u : Str)
    (h : isSubstrB (" and ".data) (pyLower u) = false) :
    handle_multiple_questions f pick u = some none := by
  simp only [handle_multiple_questions, h, Bool.false_eq_true, if_false]
  cases hm : conjunctions.any (fun c => isSubstrB c (pyLower u)) <;> simp

lemma classify_greeting (u : Str) (hg : is_simple_greeting u = true) :
    classify_input_type u = "greeting" := by
  simp [classify_input_type, hg]

lemma fsr_st_c1b (pick : Nat → Nat) (n : Nat) :
    find_single_response knn1 st_c1b
      (fun w => generate_creative_response knn1 pick st_c1b n w) ("A AND B".data)
    = generate_creative_response knn1 pick st_c1b n ("A AND B".data) := rfl

/-- On a trained state whose corpus has nothing similar to it, the input
`"A AND B"` makes `generate_creative_response` call itself on the identical
text for every amount of fuel: the lowercased text contains `' and '` (so the
multi-question path fires) but the case-sensitive split leaves the whole text
as the single part, and the reuse policy rejects the distance-1 neighbour. -/
lemma gcr_diverges_on_A_AND_B (pick : Nat → Nat) :
    ∀ fuel, generate_creative_response knn1 pick st_c1b fuel ("A AND B".data) = none := by
  intro fuel
  induction fuel with
  | zero => rfl
  | succ n ih =>
    have hfsr : find_single_response knn1 st_c1b
        (fun w => generate_creative_response knn1 pick st_c1b n w) ("A AND B".data)
        = none := (fsr_st_c1b pick n).trans ih
    have hmq : handle_multiple_questions
        (find_single_response knn1 st_c1b
          (fun w => generate_creative_response knn1 pick st_c1b n w)) pick
        ("A AND B".data) = none := by
      simp only [handle_multiple_questions]
      rw [show pySplit (" and ".data) ("A AND B".data) = [("A AND B".data)] from rfl]
      simp only [collect_parts]
      rw [show pyStrip ("A AND B".data) = ("A AND B".data) from rfl]
      simp only [hfsr]
      rw [if_neg (by decide), if_pos (by decide), if_pos (by decide)]
    rw [generate_creative_response]
    simp only [hmq]

/-- Claim C1 (code bug): `generate_response` does NOT terminate for every
non-empty input.  On the trained state `st_c1b` (corpus
`("do you like pizza", "yes!")`, nearest-neighbour distance 1 for the
disjoint-vocabulary query, as scikit-learn reports) the input `"A AND B"`
exhausts every fuel bound: the source recurses forever
(`generate_creative_response → handle_multiple_questions →
find_single_response → generate_creative_response` on the identical text) and
Python raises `RecursionError` instead of returning a response. -/
theorem C1_generate_response_A_AND_B_diverges (pick : Nat → Nat) (fuel : Nat) :
    generate_response knn1 fuel pick st_c1b ("A AND B".data) = none := by
  have hcore : generate_response knn1 fuel pick st_c1b ("A AND B".data)
      = generate_creative_response knn1 pick st_c1b fuel ("A AND B".data) := rfl
  rw [hcore]
  exact gcr_diverges_on_A_AND_B pick fuel

/-- Claim C2, counterexample: the exact-match premise does not guarantee the
exact pair's response.  In `st_c2` the query `"the cat"` has an exact
punctuation-stripped match with the second pair (response `"r2"`), but the
scan returns the first `is_very_similar` pair — `"a"` is a substring of
`"the cat"` — so `"r1"` is returned.  Moreover in `st_c2e` the query `"x"`
exactly matches the stored input `"x"`, but its stored response is the empty
(falsy) string, and generation is used instead. -/
theorem C2_counterexample_shadowed_or_empty :
    (removePunct (pyStrip (pyLower ("the cat".data)))
        = removePunct (pyLower ("the cat".data)) ∧
      ("the cat".data, "r2".data) ∈ st_c2.conversations ∧
      is_simple_greeting ("the cat".data) = false ∧
      st_c2.models_loaded = true ∧ st_c2.conversations ≠ []) ∧
    generate_response knn0 1 pick0 st_c2 ("the cat".data) = some ("r1".data) ∧
    ("r1".data : Str) ≠ "r2".data ∧
    (("x".data, ([] : Str)) ∈ st_c2e.conversations ∧
      removePunct (pyStrip (pyLower ("x".data))) = removePunct (pyLower ("x".data)) ∧
      is_simple_greeting ("x".data) = false ∧ st_c2e.models_loaded = true) ∧
    generate_response knn0 1 pick0 st_c2e ("x".data)
      = some ("I see what you mean!".data) ∧
    ("I see what you mean!".data : Str) ≠ [] := by decide

/-- Claim C2 as amended: for a non-greeting query on a loaded state, the
retrieval scan returns the stored response of the FIRST corpus pair whose
input is `is_very_similar` (cleaned-equal or containment) to the query,
provided that response is non-empty; such a reuse is always accepted since
the exact scan reports distance 0 and 0 < 3/5 and 0 < 4/5.  In particular
when the exact-matching pair is the first very-similar pair, exactly its
stored response is returned. -/
theorem C2_first_very_similar_response_returned (knnQ : KnnQ) (fuel : Nat)
    (pick : Nat → Nat) (st : CloneState) (q inp resp : Str)
    (hm : st.models_loaded = true)
    (hg : is_simple_greeting q = false)
    (hf : st.conversations.find?
        (fun p => is_very_similar (pyStrip (pyLower q)) (pyLower p.1)) = some (inp, resp))
    (hne : resp ≠ []) :
    generate_response knnQ fuel pick st q = some resp := by
  have hnonempty : st.conversations ≠ [] := by
    intro h; rw [h] at hf; simp [List.find?] at hf
  have hemp : st.conversations.isEmpty = false := by
    cases hcc : st.conversations with
    | nil => exact absurd hcc hnonempty
    | cons a l => rfl
  simp only [generate_response, hm, Bool.not_true, Bool.false_eq_true, if_false]
  simp only [generate_response_core, find_retrieval_response, hf, hemp, hg,
    Bool.false_eq_true, if_false]
  simp [should_use_zero q hg, hne]

/-- Witness for the amended C2: in `st_c2w` the exact-match pair
`("the cat", "r2")` is the first very-similar pair for the query
`"The Cat!"`, and its response is returned. -/
theorem C2_first_very_similar_response_returned_witness :
    generate_response knn0 0 pick0 st_c2w ("The Cat!".data) = some ("r2".data) :=
  C2_first_very_similar_response_returned knn0 0 pick0 st_c2w ("The Cat!".data)
    ("the cat".data) ("r2".data) rfl (by decide) (by decide) (by decide)

/-- Claim C3: for every input classified as a greeting by rule 1 (on a state
with loaded models), `generate_response` bypasses retrieval entirely and
returns one of the fixed greeting templates after style application — never a
response taken from the corpus by the retrieval scan. -/
theorem C3_greeting_always_styled_template (knnQ : KnnQ) (pick : Nat → Nat)
    (fuel : Nat) (st : CloneState) (q : Str)
    (hm : st.models_loaded = true) (hg : is_simple_greeting q = true) :
    ∃ t ∈ greeting_templates,
      generate_response knnQ (fuel + 1) pick st q
        = some (apply_user_style st.user_style t q) := by
  refine ⟨choose pick greeting_templates [],
    choose_mem pick greeting_templates [] (by decide), ?_⟩
  have hna : isSubstrB (" and ".data) (pyLower q) = false := greeting_no_and q hg
  have hgcr : generate_creative_response knnQ pick st (fuel + 1) q
      = some (apply_user_style st.user_style (choose pick greeting_templates []) q) := by
    rw [generate_creative_response]
    rw [hmq_no_and _ pick q hna]
    rw [classify_greeting q hg]
    rfl
  simp only [generate_response, hm, Bool.not_true, Bool.false_eq_true, if_false]
  simp only [generate_response_core, hg, if_true]
  cases hce : st.conversations.isEmpty <;> simp [hce, hgcr]

/-- Witness for C3 at the greeting `"hi"` on a loaded empty-corpus state. -/
theorem C3_greeting_always_styled_template_witness :
    is_simple_greeting ("hi".data) = true ∧
    ∃ t ∈ greeting_templates,
      generate_response knn0 1 pick0 st_g ("hi".data)
        = some (apply_user_style st_g.user_style t ("hi".data)) :=
  ⟨by decide, C3_greeting_always_styled_template knn0 pick0 0 st_g ("hi".data)
    rfl (by decide)⟩

/-- Claim C9, counterexample: for the empty query on a loaded, non-empty
corpus whose first stored response is the empty string, the code does NOT
return that stored response verbatim — the empty retrieval hit is falsy and
the generation path answers with a template instead. -/
theorem C9_counterexample_empty_stored_response :
    (([] : Str).all pyIsSpace = true ∧ st_c9e.models_loaded = true ∧
      st_c9e.conversations ≠ []) ∧
    generate_response knn0 1 pick0 st_c9e []
      = some ("I see what you mean!".data) ∧
    generate_response knn0 1 pick0 st_c9e []
      ≠ some ((st_c9e.conversations.headD ([], [])).2) := by decide

/-- Claim C9 as amended: for the empty string or any whitespace-only input on
a loaded state with a non-empty corpus, `generate_response` returns the first
corpus pair's stored response verbatim, PROVIDED that response is non-empty:
the empty cleaned query is a containment match with every corpus input, so
the exact scan reports the first pair at distance 0 and the policy accepts. -/
theorem C9_blank_input_returns_first_response (knnQ : KnnQ) (fuel : Nat)
    (pick : Nat → Nat) (st : CloneState) (q i0 r0 : Str) (rest : List (Str × Str))
    (hm : st.models_loaded = true)
    (hc : st.conversations = (i0, r0) :: rest)
    (hws : q.all pyIsSpace = true)
    (hne : r0 ≠ []) :
    generate_response knnQ fuel pick st q = some r0 := by
  have hg : is_simple_greeting q = false := not_greeting_of_space q hws
  have h2 : pyStrip (pyLower q) = [] := pyStrip_all_space _ (pyLower_all_space q hws)
  have hf : st.conversations.find?
      (fun p => is_very_similar (pyStrip (pyLower q)) (pyLower p.1)) = some (i0, r0) := by
    rw [hc, List.find?_cons_of_pos]
    rw [h2]; exact is_very_similar_nil_left _
  have hshould : should_use_personal_response q 0 = true := should_use_zero q hg
  rw [hc] at hf
  simp only [generate_response, hm, Bool.not_true, Bool.false_eq_true, if_false]
  simp only [generate_response_core, find_retrieval_response, hc,
    List.isEmpty_cons, Bool.false_eq_true, if_false, hg, hf]
  simp [hshould, hne]

/-- Witness for the amended C9: the empty query on `st_c9` returns the first
(and only) stored response `"ok then"`. -/
theorem C9_blank_input_returns_first_response_witness :
    generate_response knn0 0 pick0 st_c9 [] = some ("ok then".data) :=
  C9_blank_input_returns_first_response knn0 0 pick0 st_c9 [] ("x".data)
    ("ok then".data) [] rfl rfl (by decide) (by decide)
